import Mathlib

/-!
Shallow embedding of the datastore layer of the genai-databases-retrieval-app
repository, covering the two backend adapters under
`retrieval_service/datastore/providers/`:

* `cloudsql_mysql.py` — the relational + vector-search client.  Its blocking
  `*_sync` cores are embedded as pure functions over an explicit table state
  `CloudSQLMySQL.MySQLDB` (one list per SQL table, rows kept in primary-key /
  insertion order, which is the scan order of the engine).  The SQL executed by
  each method is translated query-by-query: `LIKE` is the full pattern matcher
  with `%`/`_` wildcards and `\` escapes, bare `=` on text columns compares by
  the engine's default case-insensitive collation, `CAST(... AS DATETIME)` and
  `strptime` are executable parsers, and `ORDER BY id ASC` / `LIMIT` are
  sorting and truncation on the row lists.
* `neo4j_graph.py` — the graph client, whose unsupported operation families
  raise `NotImplementedError` and whose `close` has a broken `except` handler.

Numeric conventions: SQL `INT` ids are `Int`; embedding-vector components are
modelled as exact integer scalars (`List Int`) — floating-point formatting and
float32 quantisation of the engine's vector type are outside the model, so the
`string_to_vector` / `vector_to_string` pair of the engine is modelled as an
exact mutually-inverse encoding.  `TIME` columns are modelled at the minute
precision used by the export read-back (`DATE_FORMAT(%H:%i)`), and
`TIMESTAMP` columns at second precision.
-/

set_option maxRecDepth 10000

namespace RetrievalService

/-- MySQL `LOWER()` restricted to ASCII: maps `A`–`Z` to `a`–`z` and leaves
every other character unchanged. -/
def lowerChar (c : Char) : Char :=
  if 65 ≤ c.toNat ∧ c.toNat ≤ 90 then Char.ofNat (c.toNat + 32) else c

/-- MySQL `LOWER()` on a whole string. -/
def lowerStr (s : String) : String := ⟨s.data.map lowerChar⟩

/-- MySQL `LIKE` pattern matching over character lists: the whole string must
match the whole pattern; `%` matches any (possibly empty) sequence, `_` matches
exactly one character, and `\` escapes the next pattern character (a trailing
`\` stands for itself). -/
def likeMatch : List Char → List Char → Bool
  | [], s => s.isEmpty
  | c :: ps, s =>
    if c = '%' then s.tails.any (fun t => likeMatch ps t)
    else if c = '_' then
      match s with
      | [] => false
      | _ :: s₂ => likeMatch ps s₂
    else if c = '\\' then
      match ps with
      | [] => s == ['\\']
      | e :: ps₂ =>
        match s with
        | [] => false
        | d :: s₂ => e == d && likeMatch ps₂ s₂
    else
      match s with
      | [] => false
      | d :: s₂ => c == d && likeMatch ps s₂

/-- The SQL predicate `LOWER(col) LIKE LOWER(pat)` used throughout
`cloudsql_mysql.py`. -/
def likeLower (col pat : String) : Bool :=
  likeMatch (lowerStr pat).data (lowerStr col).data

/-- Bare SQL `=` on a text column under the engine's default collation
(`utf8mb4_..._ci`), which compares case-insensitively; modelled on the ASCII
fragment as equality after `LOWER`. -/
def collEq (a b : String) : Bool := lowerStr a == lowerStr b

/-- True when a string contains none of the `LIKE` metacharacters `%`, `_`,
`\`, so that a `LIKE` against it degenerates to plain equality. -/
def noWildcard (s : String) : Bool :=
  s.data.all (fun c => !(c == '%' || c == '_' || c == '\\'))

/-- Time-of-day value of a `TIME` column at the minute precision of the
`DATE_FORMAT(col, %H:%i)` read-back. -/
structure TimeHM where
  hour : Nat
  minute : Nat
deriving DecidableEq

/-- Calendar timestamp of a MySQL `DATETIME`/`TIMESTAMP` value, at second
precision. -/
structure DateTime where
  year : Nat
  month : Nat
  day : Nat
  hour : Nat
  minute : Nat
  second : Nat
deriving DecidableEq

/-- Mixed-radix key that is strictly monotone in the chronological order for
in-range component values; comparisons on `DATETIME` values are comparisons of
keys. -/
def DateTime.key (t : DateTime) : Nat :=
  ((((t.year * 13 + t.month) * 32 + t.day) * 24 + t.hour) * 60 + t.minute) * 60 + t.second

/-- Gregorian leap-year test. -/
def leapYear (y : Nat) : Bool :=
  y % 4 == 0 && (y % 100 != 0 || y % 400 == 0)

/-- Number of days of month `m` in year `y`. -/
def daysInMonth (y m : Nat) : Nat :=
  if m == 2 then (if leapYear y then 29 else 28)
  else if m == 4 || m == 6 || m == 9 || m == 11 then 30
  else 31

/-- MySQL `DATE_ADD(t, INTERVAL 1 DAY)`. -/
def addOneDay (t : DateTime) : DateTime :=
  if t.day + 1 ≤ daysInMonth t.year t.month then { t with day := t.day + 1 }
  else if t.month + 1 ≤ 12 then { t with month := t.month + 1, day := 1 }
  else { t with year := t.year + 1, month := 1, day := 1 }

/-- Split a character list at every occurrence of `c` (the separators are not
kept). -/
def splitOnChar (c : Char) : List Char → List (List Char)
  | [] => [[]]
  | d :: l =>
    match splitOnChar c l with
    | [] => if d == c then [[], []] else [[d]]
    | g :: gs => if d == c then [] :: g :: gs else (d :: g) :: gs

/-- Parse a non-empty all-digit character list as a decimal number. -/
def parseDigits (s : List Char) : Option Nat :=
  if s.isEmpty then none
  else if s.all Char.isDigit then
    some (s.foldl (fun n c => n * 10 + (c.toNat - 48)) 0)
  else none

/-- Valid Gregorian date components as accepted by Python's `datetime`
constructor and by MySQL's datetime parsing. -/
def validDate (y m d : Nat) : Bool :=
  1 ≤ y && y ≤ 9999 && 1 ≤ m && m ≤ 12 && 1 ≤ d && d ≤ daysInMonth y m

/-- Valid time-of-day components. -/
def validTime (h mi s : Nat) : Bool := h ≤ 23 && mi ≤ 59 && s ≤ 59

/-- Python `datetime.strptime(date, "%Y-%m-%d")` as used by
`search_flights_by_airports_sync`: parses a dash-separated calendar date into
midnight of that day, or fails (the Python call raises `ValueError`). -/
def strptimeDate (s : String) : Option DateTime :=
  match (splitOnChar '-' s.data).map parseDigits with
  | [some y, some m, some d] =>
    if validDate y m d then some ⟨y, m, d, 0, 0, 0⟩ else none
  | _ => none

/-- Parse the `HH:MM` or `HH:MM:SS` time part of a datetime literal. -/
def parseTimePart (s : List Char) : Option (Nat × Nat × Nat) :=
  match (splitOnChar ':' s).map parseDigits with
  | [some h, some mi] => some (h, mi, 0)
  | [some h, some mi, some sec] => some (h, mi, sec)
  | _ => none

/-- MySQL `CAST(expr AS DATETIME)` on the string literals this service passes
(ISO-like `YYYY-MM-DD[ T]HH:MM[:SS]`, date part alone allowed); an invalid
value casts to SQL `NULL`, which no equality or range comparison matches. -/
def castDatetime (s : String) : Option DateTime :=
  match if s.data.contains 'T' then splitOnChar 'T' s.data else splitOnChar ' ' s.data with
  | [ds] =>
    match (splitOnChar '-' ds).map parseDigits with
    | [some y, some m, some d] =>
      if validDate y m d then some ⟨y, m, d, 0, 0, 0⟩ else none
    | _ => none
  | [ds, ts] =>
    match (splitOnChar '-' ds).map parseDigits, parseTimePart ts with
    | [some y, some m, some d], some (h, mi, sec) =>
      if validDate y m d && validTime h mi sec then some ⟨y, m, d, h, mi, sec⟩ else none
    | _, _ => none
  | _ => none

/-- Modelled from the spec: `models.py` is not under `src/`.  Airport record —
integer id (primary key), IATA code, name, city, country. -/
structure Airport where
  id : Int
  iata : String
  name : String
  city : String
  country : String
deriving DecidableEq

/-- Modelled from the spec: `models.py` is not under `src/`.  Amenity record —
id, six free-text descriptive fields, fourteen optional per-weekday open/close
times, free-text content and a 768-component embedding vector.  Content and
embedding are `NOT NULL` columns in storage but optional on the in-memory
record: both providers construct amenities without them (`get_amenity` selects
only the descriptive columns), so the model defaults them to `none`. -/
structure Amenity where
  id : Int
  name : String
  description : String
  location : String
  terminal : String
  category : String
  hour : String
  sunday_start_hour : Option TimeHM := none
  sunday_end_hour : Option TimeHM := none
  monday_start_hour : Option TimeHM := none
  monday_end_hour : Option TimeHM := none
  tuesday_start_hour : Option TimeHM := none
  tuesday_end_hour : Option TimeHM := none
  wednesday_start_hour : Option TimeHM := none
  wednesday_end_hour : Option TimeHM := none
  thursday_start_hour : Option TimeHM := none
  thursday_end_hour : Option TimeHM := none
  friday_start_hour : Option TimeHM := none
  friday_end_hour : Option TimeHM := none
  saturday_start_hour : Option TimeHM := none
  saturday_end_hour : Option TimeHM := none
  content : Option String := none
  embedding : Option (List Int) := none
deriving DecidableEq

/-- Modelled from the spec: `models.py` is not under `src/`.  Flight record. -/
structure Flight where
  id : Int
  airline : String
  flight_number : String
  departure_airport : String
  arrival_airport : String
  departure_time : DateTime
  arrival_time : DateTime
  departure_gate : String
  arrival_gate : String
deriving DecidableEq

/-- Modelled from the spec: `models.py` is not under `src/`.  Policy record —
id, content, 768-component embedding (a `NOT NULL` column, optional on the
in-memory record). -/
structure Policy where
  id : Int
  content : String
  embedding : Option (List Int) := none
deriving DecidableEq

/-- Modelled from the spec: `models.py` is not under `src/`.  Ticket record —
no primary key. -/
structure Ticket where
  user_id : String
  user_name : String
  user_email : String
  airline : String
  flight_number : String
  departure_airport : String
  arrival_airport : String
  departure_time : DateTime
  arrival_time : DateTime
deriving DecidableEq

/-- Python exception classes that reach this layer's callers. -/
inductive PyErr
  | valueError (msg : String)
  | integrityError (msg : String)
  | notImplementedError (msg : String)
  | nameError (missing : String)
  | sslError (msg : String)
  | driverError (msg : String)
deriving DecidableEq

instance {ε α : Type} [DecidableEq ε] [DecidableEq α] : DecidableEq (Except ε α) :=
  fun x y =>
    match x, y with
    | .ok a, .ok b =>
      if h : a = b then .isTrue (congrArg Except.ok h)
      else .isFalse fun he => h (Except.ok.inj he)
    | .error e, .error f =>
      if h : e = f then .isTrue (congrArg Except.error h)
      else .isFalse fun he => h (Except.error.inj he)
    | .ok _, .error _ => .isFalse fun he => Except.noConfusion he
    | .error _, .ok _ => .isFalse fun he => Except.noConfusion he

/-- Outcome of a `close()` call: clean shutdown or a raised exception. -/
inductive CloseResult
  | closed
  | raised (e : PyErr)
deriving DecidableEq

/-- Squared Euclidean distance between two embedding vectors. -/
def dist2 (a b : List Int) : Int :=
  (List.zipWith (fun x y => (x - y) * (x - y)) a b).sum

/-- Pairwise-distinct key check, the condition under which a bulk `INSERT`
into a table with `id ... PRIMARY KEY` succeeds. -/
def distinctKeys {α : Type} (key : α → Int) : List α → Bool
  | [] => true
  | a :: l => l.all (fun b => key b != key a) && distinctKeys key l

/-- Rows of a table read back in `ORDER BY id ASC` order. -/
def orderByIdAsc {α : Type} (key : α → Int) (l : List α) : List α :=
  List.insertionSort (fun a b => key a ≤ key b) l

/-- Modelled from the spec: the engine's `NEAREST(embedding) TO
(string_to_vector(q), num_neighbors=k)` operator — nearest-neighbour
retrieval over the stored embedding column, returning the `k` stored rows
closest to the query vector in ascending distance order. -/
def nearestNeighbors {α : Type} (emb : α → Option (List Int)) (q : List Int) (k : Nat)
    (rows : List α) : List α :=
  (List.insertionSort
    (fun a b => dist2 ((emb a).getD []) q ≤ dist2 ((emb b).getD []) q) rows).take k

namespace CloudSQLMySQL

/-- Table state of the `cloudsql-mysql` client: one list per table created by
`initialize_data_sync`, rows in primary-key/insertion order (the engine's scan
order). -/
structure MySQLDB where
  airports : List Airport
  amenities : List Amenity
  flights : List Flight
  tickets : List Ticket
  policies : List Policy
deriving DecidableEq

/-- A database with all five tables empty. -/
def emptyDB : MySQLDB := ⟨[], [], [], [], []⟩

/-- Row constraints of the `amenities` table: `content` and `embedding` are
`NOT NULL`, and `string_to_vector` accepts only a 768-component vector for the
`vector(768)` column. -/
def amenityRowOk (a : Amenity) : Bool :=
  a.content.isSome &&
    (match a.embedding with
     | some v => v.length == 768
     | none => false)

/-- Row constraints of the `policies` table (`embedding vector(768) NOT NULL`). -/
def policyRowOk (p : Policy) : Bool :=
  match p.embedding with
  | some v => v.length == 768
  | none => false

/-- Embeds `Client.initialize_data_sync`: drop and recreate the five tables, bulk
insert the given airports, amenities, flights and policies (tickets are
recreated empty), and rebuild the two vector indexes.  A duplicate primary key
or a `NOT NULL`/vector-dimension violation makes the corresponding `INSERT`
raise, which aborts the call. -/
def initialize_data_sync (_db : MySQLDB) (airports : List Airport) (amenities : List Amenity)
    (flights : List Flight) (policies : List Policy) : Except PyErr MySQLDB :=
  if !distinctKeys (·.id) airports then
    .error (.integrityError "Duplicate entry for key airports.PRIMARY")
  else if !distinctKeys (·.id) amenities then
    .error (.integrityError "Duplicate entry for key amenities.PRIMARY")
  else if !amenities.all amenityRowOk then
    .error (.integrityError "amenities row violates NOT NULL or vector(768)")
  else if !distinctKeys (·.id) flights then
    .error (.integrityError "Duplicate entry for key flights.PRIMARY")
  else if !distinctKeys (·.id) policies then
    .error (.integrityError "Duplicate entry for key policies.PRIMARY")
  else if !policies.all policyRowOk then
    .error (.integrityError "policies row violates NOT NULL or vector(768)")
  else
    .ok { airports := airports, amenities := amenities, flights := flights,
          tickets := [], policies := policies }

/-- Embeds `Client.export_data_sync`: read every table back `ORDER BY id ASC`.  The
amenity read-back formats each `TIME` column with `DATE_FORMAT(%H:%i)`
(identity at the modelled minute precision) and decodes each stored embedding
with `vector_to_string` (exact inverse of the insert-side encoding in this
model), reconstructing the stored records. -/
def export_data_sync (db : MySQLDB) :
    List Airport × List Amenity × List Flight × List Policy :=
  (orderByIdAsc (·.id) db.airports, orderByIdAsc (·.id) db.amenities,
   orderByIdAsc (·.id) db.flights, orderByIdAsc (·.id) db.policies)

/-- Embeds `Client.get_airport_by_id_sync`: `SELECT * FROM airports WHERE id=:id`,
`fetchone`. -/
def get_airport_by_id_sync (db : MySQLDB) (id : Int) : Option Airport × Option String :=
  (db.airports.find? (fun a => a.id == id), none)

/-- Embeds `Client.get_airport_by_iata_sync`:
`SELECT * FROM airports WHERE LOWER(iata) LIKE LOWER(:iata)`, `fetchone`. -/
def get_airport_by_iata_sync (db : MySQLDB) (iata : String) : Option Airport × Option String :=
  ((db.airports.filter (fun a => likeLower a.iata iata)).head?, none)

/-- The column set selected by `get_amenity_sync` (`SELECT id, name,
description, location, terminal, category, hour FROM amenities ...`): the
validated record carries only those seven columns, every other field taking
its model default. -/
def amenityColumns (a : Amenity) : Amenity :=
  { id := a.id, name := a.name, description := a.description, location := a.location,
    terminal := a.terminal, category := a.category, hour := a.hour }

/-- Embeds `Client.get_amenity_sync`: point lookup on id, projected to the seven
selected columns, `fetchone`. -/
def get_amenity_sync (db : MySQLDB) (id : Int) : Option Amenity × Option String :=
  ((db.amenities.find? (fun a => a.id == id)).map amenityColumns, none)

/-- The column set selected by `amenities_search_sync` (name, description,
location, terminal, category, hour — no id). -/
structure AmenitySearchRow where
  name : String
  description : String
  location : String
  terminal : String
  category : String
  hour : String
deriving DecidableEq

/-- Projection of an amenity row to the columns returned by the similarity
search. -/
def amenitySearchRow (a : Amenity) : AmenitySearchRow :=
  ⟨a.name, a.description, a.location, a.terminal, a.category, a.hour⟩

/-- Embeds `Client.amenities_search_sync`: nearest-neighbour search over the amenity
embeddings with `num_neighbors = top_k`; `similarity_threshold` is accepted
but appears nowhere in the executed query. -/
def amenities_search_sync (db : MySQLDB) (query_embedding : List Int)
    (similarity_threshold : Int) (top_k : Nat) : List AmenitySearchRow × Option String :=
  ((nearestNeighbors Amenity.embedding query_embedding top_k db.amenities).map amenitySearchRow,
   none)

/-- Embeds `Client.get_flight_sync`: `SELECT * FROM flights WHERE id = :flight_id`,
`fetchone`. -/
def get_flight_sync (db : MySQLDB) (flight_id : Int) : Option Flight × Option String :=
  (db.flights.find? (fun f => f.id == flight_id), none)

/-- Embeds `Client.search_flights_by_number_sync`: `SELECT * FROM flights WHERE
airline = :airline AND flight_number = :number LIMIT 10` — bare `=` under the
default collation, no `LIKE` and no `LOWER`. -/
def search_flights_by_number_sync (db : MySQLDB) (airline : String) (number : String) :
    List Flight × Option String :=
  ((db.flights.filter (fun f =>
      collEq f.airline airline && collEq f.flight_number number)).take 10, none)

/-- The SQL condition `(CAST(:p AS CHAR(255)) IS NULL OR LOWER(col) LIKE
LOWER(:p))` of `search_flights_by_airports_sync`: a `NULL` parameter matches
every row, a present one is a case-insensitive `LIKE`. -/
def optFilterLike (v : Option String) (col : String) : Bool :=
  match v with
  | none => true
  | some p => likeLower col p

/-- Embeds `Client.search_flights_by_airports_sync`: the date string goes through
`datetime.strptime(date, "%Y-%m-%d")` (raising `ValueError` on a malformed
date), each supplied airport filter is `LOWER(col) LIKE LOWER(:param)` with a
`NULL` check letting an absent filter match everything, and the departure
timestamp must satisfy `departure_time >= d AND departure_time < DATE_ADD(d,
INTERVAL 1 DAY)`; `LIMIT 10`. -/
def search_flights_by_airports_sync (db : MySQLDB) (date : String)
    (departure_airport : Option String) (arrival_airport : Option String) :
    Except PyErr (List Flight × Option String) :=
  match strptimeDate date with
  | none => .error (.valueError "time data does not match format %Y-%m-%d")
  | some d =>
    .ok ((db.flights.filter (fun f =>
        optFilterLike departure_airport f.departure_airport &&
        optFilterLike arrival_airport f.arrival_airport &&
        decide (d.key ≤ f.departure_time.key) &&
        decide (f.departure_time.key < (addOneDay d).key))).take 10, none)

/-- Embeds `Client.validate_ticket_sync`: `LOWER(col) LIKE LOWER(:param)` on airline,
flight number and departure airport, exact equality of `departure_time`
against `CAST(:departure_time AS DATETIME)` (an unparseable literal casts to
`NULL`, matching nothing), `LIMIT 10`, `fetchone`. -/
def validate_ticket_sync (db : MySQLDB) (airline : String) (flight_number : String)
    (departure_airport : String) (departure_time : String) :
    Option Flight × Option String :=
  (((db.flights.filter (fun f =>
      likeLower f.airline airline && likeLower f.flight_number flight_number &&
      likeLower f.departure_airport departure_airport &&
      (match castDatetime departure_time with
       | none => false
       | some t => f.departure_time == t))).take 10).head?, none)

/-- Embeds `Client.policies_search_sync`: nearest-neighbour search over the policy
embeddings with `num_neighbors = top_k`, returning the `content` column only;
`similarity_threshold` is accepted but appears nowhere in the executed query. -/
def policies_search_sync (db : MySQLDB) (query_embedding : List Int)
    (similarity_threshold : Int) (top_k : Nat) : List String × Option String :=
  ((nearestNeighbors Policy.embedding query_embedding top_k db.policies).map Policy.content,
   none)

/-- Embeds `Client.close`: drops the two vector indexes and disposes the pool with no
exception handler of any kind, so a failure in either step propagates to the
caller unchanged. -/
def close (outcome : Option PyErr) : CloseResult :=
  match outcome with
  | none => .closed
  | some e => .raised e

end CloudSQLMySQL

namespace Neo4jGraph

/-- Property set of an `(:Amenity ...)` node created by the graph client's
`create_amenity`: only the seven descriptive fields are written — hours,
content and embedding are not persisted. -/
structure AmenityNode where
  id : Int
  name : String
  description : String
  location : String
  terminal : String
  category : String
  hour : String
deriving DecidableEq

/-- Projection writing an amenity record as an `(:Amenity)` node. -/
def amenityNode (a : Amenity) : AmenityNode :=
  ⟨a.id, a.name, a.description, a.location, a.terminal, a.category, a.hour⟩

/-- Node state of the `neo4j` client: the four node labels written by
`initialize_data`.  There is no ticket label — the graph backend has no
ticket storage. -/
structure GraphDB where
  airportNodes : List Airport
  amenityNodes : List AmenityNode
  flightNodes : List Flight
  policyNodes : List Policy
deriving DecidableEq

/-- Embeds `Client.initialize_data` of the graph client: `MATCH (n) DETACH DELETE n`,
then sequentially `CREATE` one node per airport, amenity, flight and policy.
The signature has no ticket parameter: tickets are not part of the bulk-load
contract. -/
def initialize_data (_g : GraphDB) (airports : List Airport) (amenities : List Amenity)
    (flights : List Flight) (policies : List Policy) : GraphDB :=
  { airportNodes := airports, amenityNodes := amenities.map amenityNode,
    flightNodes := flights, policyNodes := policies }

/-- Embeds `Client.export_data` of the graph client: unconditionally raises
`NotImplementedError`. -/
def export_data (_g : GraphDB) :
    Except PyErr (List Airport × List Amenity × List Flight × List Policy) :=
  .error (.notImplementedError "This client does not support export data.")

/-- Embeds `Client.validate_ticket` of the graph client: unconditionally raises
`NotImplementedError`. -/
def validate_ticket (_g : GraphDB) (_airline _flight_number _departure_airport
    _departure_time : String) : Except PyErr (Option Flight) :=
  .error (.notImplementedError "This client does not support tickets.")

/-- Embeds `Client.insert_ticket` of the graph client: unconditionally raises
`NotImplementedError`. -/
def insert_ticket (_g : GraphDB) (_user_id _user_name _user_email _airline _flight_number
    _departure_airport _arrival_airport _departure_time _arrival_time : String) :
    Except PyErr Unit :=
  .error (.notImplementedError "This client does not support tickets.")

/-- Embeds `Client.list_tickets` of the graph client: unconditionally raises
`NotImplementedError`. -/
def list_tickets (_g : GraphDB) (_user_id : String) : Except PyErr (List Ticket) :=
  .error (.notImplementedError "This client does not support tickets.")

/-- Whether the module `neo4j_graph.py` imports `logging`.  Its import list is
`asyncio`, `typing`, `neo4j`, `pydantic`, `ssl`, `models` and `datastore` —
`logging` is absent, so the name `logging` is unbound in the module. -/
def moduleImportsLogging : Bool := false

/-- Embeds `Client.close` of the graph client: `await driver.close()` inside `try`,
with `except ssl.SSLError as e: logging.error(...)`.  Evaluating the handler
body looks up the name `logging`, which raises `NameError` when the module
never imported it; exceptions other than `ssl.SSLError` are not caught at
all. -/
def close (driverClose : Option PyErr) : CloseResult :=
  match driverClose with
  | none => .closed
  | some (.sslError _) =>
    if moduleImportsLogging then .closed else .raised (.nameError "logging")
  | some e => .raised e

end Neo4jGraph

/-! Sample records used to instantiate the claims on concrete data. -/

open CloudSQLMySQL

/-- Sample airport row. -/
def sfo : Airport :=
  ⟨1, "SFO", "San Francisco International Airport", "San Francisco", "United States"⟩

/-- Second sample airport row, with a larger id than `sfo`. -/
def jfk : Airport :=
  ⟨2, "JFK", "John F Kennedy International Airport", "New York", "United States"⟩

/-- Sample flight row. -/
def deltaFlight : Flight :=
  ⟨1, "Delta", "1111", "SFO", "JFK", ⟨2024, 1, 1, 10, 0, 0⟩, ⟨2024, 1, 1, 18, 0, 0⟩,
   "A1", "B2"⟩

/-- Sample flight row used by the United `validateTicket` example. -/
def unitedFlight : Flight :=
  ⟨2, "United", "1111", "SFO", "DEN", ⟨2024, 1, 1, 10, 0, 0⟩, ⟨2024, 1, 1, 13, 0, 0⟩,
   "C3", "D4"⟩

/-- Sample flight departing inside the 2024-01-01 window. -/
def flightJan1 : Flight :=
  ⟨1, "CymbalAir", "100", "SFO", "SEA", ⟨2024, 1, 1, 8, 0, 0⟩, ⟨2024, 1, 1, 10, 0, 0⟩,
   "A1", "B1"⟩

/-- Sample flight departing just before the 2024-01-01 window. -/
def flightDec31 : Flight :=
  ⟨2, "CymbalAir", "101", "SFO", "SEA", ⟨2023, 12, 31, 23, 59, 0⟩, ⟨2024, 1, 1, 1, 59, 0⟩,
   "A2", "B2"⟩

/-- Sample amenity row with every optional column populated, as the source
dataset rows are. -/
def coffeeShop : Amenity :=
  { id := 1, name := "Common Grounds", description := "Coffee shop",
    location := "Near gate A1", terminal := "Terminal 1", category := "restaurant",
    hour := "Daily 6am to 10pm",
    sunday_start_hour := some ⟨6, 0⟩, sunday_end_hour := some ⟨22, 0⟩,
    monday_start_hour := some ⟨6, 0⟩, monday_end_hour := some ⟨22, 0⟩,
    content := some "Common Grounds serves coffee and pastries.",
    embedding := some (List.replicate 768 0) }

/-- Second sample amenity row. -/
def bookShop : Amenity :=
  { id := 2, name := "Page Turner", description := "Book store",
    location := "Near gate B2", terminal := "Terminal 2", category := "shop",
    hour := "Daily 8am to 8pm",
    content := some "Page Turner sells books and magazines.",
    embedding := some (List.replicate 768 1) }

/-- Sample policy row. -/
def bagPolicy : Policy :=
  { id := 1, content := "Checked bags must weigh less than 50 pounds.",
    embedding := some (List.replicate 768 0) }

/-- Database holding the wildcard-scenario rows. -/
def wildcardDB : MySQLDB :=
  { airports := [sfo], amenities := [], flights := [deltaFlight], tickets := [],
    policies := [] }

/-- Optional-filter condition of the amended C4: an absent filter matches
everything, a present one matches by case-insensitive whole-string equality. -/
def optFilterCI (v : Option String) (col : String) : Bool :=
  match v with
  | none => true
  | some p => lowerStr col == lowerStr p

/-- Day-window and airport condition of the amended C4: the departure
timestamp lies in the 24-hour window starting at `d` (inclusive start,
exclusive end), and each supplied airport filter matches the corresponding
code case-insensitively. -/
def flightDayMatch (d : DateTime) (dep arr : Option String) (f : Flight) : Bool :=
  optFilterCI dep f.departure_airport &&
  optFilterCI arr f.arrival_airport &&
  decide (d.key ≤ f.departure_time.key) &&
  decide (f.departure_time.key < (addOneDay d).key)

/-- The database produced by a successful `initialize_data_sync` on the
one-row-per-table sample data. -/
def lookupDB : MySQLDB :=
  { airports := [sfo], amenities := [coffeeShop], flights := [deltaFlight], tickets := [],
    policies := [bagPolicy] }

/-- The database produced by initializing with the airports out of id order. -/
def unsortedDB : MySQLDB :=
  { airports := [jfk, sfo], amenities := [coffeeShop], flights := [flightJan1],
    tickets := [], policies := [bagPolicy] }

/-- Database holding the two flights of the spec's date-window example. -/
def januaryDB : MySQLDB :=
  { airports := [], amenities := [], flights := [flightJan1, flightDec31], tickets := [],
    policies := [] }

/-- Database holding only the United sample flight. -/
def unitedDB : MySQLDB :=
  { airports := [], amenities := [], flights := [unitedFlight], tickets := [],
    policies := [] }

/-! Lemmas about the string, pattern and table primitives. -/

theorem lowerChar_upper_ne {c w : Char} (h1 : 65 ≤ c.toNat) (h2 : c.toNat ≤ 90)
    (hw : w.toNat < 97) : Char.ofNat (c.toNat + 32) ≠ w := by
  intro he
  have hv : (c.toNat + 32).isValidChar := by
    left
    omega
  have ht : (Char.ofNat (c.toNat + 32)).toNat = c.toNat + 32 := by
    unfold Char.ofNat
    rw [dif_pos hv]
    unfold Char.ofNatAux Char.toNat
    simp [UInt32.toNat, UInt32.ofNatCore]
  rw [he] at ht
  omega

theorem lowerChar_notWild {c : Char}
    (h : (!(c == '%' || c == '_' || c == '\\')) = true) :
    (!(lowerChar c == '%' || lowerChar c == '_' || lowerChar c == '\\')) = true := by
  unfold lowerChar
  split
  · next hle =>
    simp only [Bool.not_eq_true', Bool.or_eq_false_iff, beq_eq_false_iff_ne, ne_eq]
    exact ⟨⟨lowerChar_upper_ne hle.1 hle.2 (by decide),
      lowerChar_upper_ne hle.1 hle.2 (by decide)⟩,
      lowerChar_upper_ne hle.1 hle.2 (by decide)⟩
  · exact h

theorem noWildcard_lowerStr {s : String} (h : noWildcard s = true) :
    noWildcard (lowerStr s) = true := by
  unfold noWildcard at h ⊢
  have hd : (lowerStr s).data = s.data.map lowerChar := rfl
  rw [hd, List.all_map, List.all_eq_true]
  rw [List.all_eq_true] at h
  intro c hc
  exact lowerChar_notWild (h c hc)

theorem likeMatch_noWild :
    ∀ (p : List Char), p.all (fun c => !(c == '%' || c == '_' || c == '\\')) = true →
      ∀ s, (likeMatch p s = true ↔ p = s)
  | [], _, s => by cases s <;> simp [likeMatch]
  | c :: ps, hall, s => by
    rw [List.all_cons, Bool.and_eq_true] at hall
    obtain ⟨hc, hps⟩ := hall
    simp only [Bool.not_eq_true', Bool.or_eq_false_iff, beq_eq_false_iff_ne, ne_eq] at hc
    obtain ⟨⟨hc1, hc2⟩, hc3⟩ := hc
    cases s with
    | nil =>
      rw [likeMatch.eq_def]
      simp [hc1, hc2, hc3]
    | cons d s₂ =>
      rw [likeMatch.eq_def]
      simp [hc1, hc2, hc3, Bool.and_eq_true, beq_iff_eq,
        likeMatch_noWild ps hps s₂, List.cons.injEq]

theorem likeLower_iff {col pat : String} (h : noWildcard pat = true) :
    likeLower col pat = true ↔ lowerStr col = lowerStr pat := by
  unfold likeLower
  rw [likeMatch_noWild _ (noWildcard_lowerStr h)]
  constructor
  · intro he
    exact (String.ext he).symm
  · intro he
    rw [he]

theorem collEq_iff {a b : String} : collEq a b = true ↔ lowerStr a = lowerStr b := by
  unfold collEq
  exact beq_iff_eq

theorem distinctKeys_pairwise {α : Type} (key : α → Int) :
    ∀ l : List α, (distinctKeys key l = true ↔ l.Pairwise (fun a b => key a ≠ key b))
  | [] => by simp [distinctKeys]
  | a :: l => by
    simp only [distinctKeys, Bool.and_eq_true, List.all_eq_true, bne_iff_ne, ne_eq,
      List.pairwise_cons, distinctKeys_pairwise key l]
    constructor
    · rintro ⟨h1, h2⟩
      exact ⟨fun b hb he => h1 b hb he.symm, h2⟩
    · rintro ⟨h1, h2⟩
      exact ⟨fun b hb he => h1 b hb he.symm, h2⟩

theorem find?_key {α : Type} (key : α → Int) :
    ∀ (l : List α), l.Pairwise (fun a b => key a ≠ key b) →
      ∀ a ∈ l, l.find? (fun x => key x == key a) = some a
  | [], _, a, ha => by simp at ha
  | b :: l, hp, a, ha => by
    rcases List.mem_cons.1 ha with rfl | ha₂
    · simp [List.find?_cons]
    · have hb : key b ≠ key a := (List.pairwise_cons.1 hp).1 a ha₂
      have hfalse : (key b == key a) = false := beq_eq_false_iff_ne.2 hb
      rw [List.find?_cons, hfalse]
      exact find?_key key l (List.pairwise_cons.1 hp).2 a ha₂

theorem head?_take10 {α : Type} (l : List α) : (l.take 10).head? = l.head? := by
  cases l <;> rfl

theorem head?_filter_unique {α : Type} (p : α → Bool) (l : List α) (f : α) (hf : f ∈ l)
    (hpf : p f = true) (huniq : ∀ g ∈ l, p g = true → g = f) :
    (l.filter p).head? = some f := by
  have hne : l.filter p ≠ [] := List.ne_nil_of_mem (List.mem_filter.2 ⟨hf, hpf⟩)
  cases hfp : l.filter p with
  | nil => exact absurd hfp hne
  | cons x xs =>
    have hx : x ∈ l.filter p := by
      rw [hfp]
      exact List.mem_cons_self x xs
    have hmem := List.mem_filter.1 hx
    simp [huniq x hmem.1 hmem.2]

namespace CloudSQLMySQL

theorem initialize_ok_inv {db0 db : MySQLDB} {A : List Airport} {B : List Amenity}
    {C : List Flight} {D : List Policy}
    (h : initialize_data_sync db0 A B C D = .ok db) :
    db = ⟨A, B, C, [], D⟩ ∧ distinctKeys (·.id) A = true ∧ distinctKeys (·.id) B = true ∧
      B.all amenityRowOk = true ∧ distinctKeys (·.id) C = true ∧
      distinctKeys (·.id) D = true ∧ D.all policyRowOk = true := by
  unfold initialize_data_sync at h
  repeat' split at h
  all_goals simp_all

end CloudSQLMySQL


/-! Claim theorems. -/

/-- C3: on the graph (neo4j) backend, every capability-contract method of the
ticket family — the only entity family it does not persist — and
`exportData`, which contains that family's read-back, raise the distinct
`NotImplementedError` unsupported-operation condition for every input and
every state; none of them returns a silent empty result or surfaces a driver
error.  (`initializeData` carries no ticket portion: its signature takes no
ticket list.) -/
theorem claim3_neo4j_unsupported_ticket_family (g : Neo4jGraph.GraphDB)
    (uid uname uemail airline fnum dep arr dtime atime : String)
    (vair vfn vdep vdt luid : String) :
    Neo4jGraph.insert_ticket g uid uname uemail airline fnum dep arr dtime atime =
      .error (.notImplementedError "This client does not support tickets.") ∧
    Neo4jGraph.list_tickets g luid =
      .error (.notImplementedError "This client does not support tickets.") ∧
    Neo4jGraph.validate_ticket g vair vfn vdep vdt =
      .error (.notImplementedError "This client does not support tickets.") ∧
    Neo4jGraph.export_data g =
      .error (.notImplementedError "This client does not support export data.") :=
  ⟨rfl, rfl, rfl, rfl⟩

/-- C6: both similarity searches return at most `top_k` rows, and the selected
records are ordered by non-decreasing squared distance to the query vector. -/
theorem claim6_topk_bound_and_distance_order (db : MySQLDB) (q : List Int) (thr : Int)
    (k : Nat) :
    (amenities_search_sync db q thr k).1.length ≤ k ∧
    List.Pairwise
      (fun a b => dist2 (a.embedding.getD []) q ≤ dist2 (b.embedding.getD []) q)
      (nearestNeighbors Amenity.embedding q k db.amenities) ∧
    (policies_search_sync db q thr k).1.length ≤ k ∧
    List.Pairwise
      (fun a b => dist2 (a.embedding.getD []) q ≤ dist2 (b.embedding.getD []) q)
      (nearestNeighbors Policy.embedding q k db.policies) := by
  refine ⟨?_, ?_, ?_, ?_⟩
  · simp only [amenities_search_sync, nearestNeighbors, List.length_map]
    exact List.length_take_le k _
  · haveI : IsTotal Amenity
        (fun a b => dist2 (a.embedding.getD []) q ≤ dist2 (b.embedding.getD []) q) :=
      ⟨fun a b => le_total _ _⟩
    haveI : IsTrans Amenity
        (fun a b => dist2 (a.embedding.getD []) q ≤ dist2 (b.embedding.getD []) q) :=
      ⟨fun _ _ _ hab hbc => le_trans hab hbc⟩
    exact List.Pairwise.sublist (List.take_sublist k _)
      (List.sorted_insertionSort _ db.amenities)
  · simp only [policies_search_sync, nearestNeighbors, List.length_map]
    exact List.length_take_le k _
  · haveI : IsTotal Policy
        (fun a b => dist2 (a.embedding.getD []) q ≤ dist2 (b.embedding.getD []) q) :=
      ⟨fun a b => le_total _ _⟩
    haveI : IsTrans Policy
        (fun a b => dist2 (a.embedding.getD []) q ≤ dist2 (b.embedding.getD []) q) :=
      ⟨fun _ _ _ hab hbc => le_trans hab hbc⟩
    exact List.Pairwise.sublist (List.take_sublist k _)
      (List.sorted_insertionSort _ db.policies)

/-- C7: the accepted `similarity_threshold` parameter has no effect — both
similarity searches return identical results for any two threshold values
over the same stored data and query. -/
theorem claim7_similarity_threshold_inert (db : MySQLDB) (q : List Int) (t1 t2 : Int)
    (k : Nat) :
    amenities_search_sync db q t1 k = amenities_search_sync db q t2 k ∧
    policies_search_sync db q t1 k = policies_search_sync db q t2 k :=
  ⟨rfl, rfl⟩

/-- C8: contrary to the claim, a transport-layer failure during `close()` is
not logged-and-suppressed by either client.  The neo4j `except ssl.SSLError`
handler calls `logging.error` without the module ever importing `logging`, so
it raises `NameError`; the cloudsql-mysql `close` has no handler at all, so
the driver error propagates unchanged. -/
theorem claim8_close_reraises :
    Neo4jGraph.close (some (.sslError "SSL handshake failed")) =
      .raised (.nameError "logging") ∧
    CloudSQLMySQL.close (some (.driverError "drop_vector_index failed")) =
      .raised (.driverError "drop_vector_index failed") :=
  ⟨rfl, rfl⟩

/-- C10: the string arguments of `getAirportByIata` and `validateTicket` are
SQL `LIKE` patterns: on non-empty stored data, `getAirportByIata("%")`
returns an airport whose IATA code is not the literal `%`, and
`validateTicket` with airline `%` matches a flight of a different airline. -/
theorem claim10_like_wildcard_arguments :
    get_airport_by_iata_sync wildcardDB "%" = (some sfo, none) ∧
    sfo.iata ≠ "%" ∧
    validate_ticket_sync wildcardDB "%" "1111" "SFO" "2024-01-01T10:00" =
      (some deltaFlight, none) ∧
    deltaFlight.airline ≠ "%" := by
  refine ⟨?_, ?_, ?_, ?_⟩ <;> decide

/-- C1 (amended): after a successful `initializeData` on the relational
client, `getAirportById` and `getFlight` return exactly the inserted record
for every inserted id; `getAmenity` returns the inserted record projected to
the seven selected columns (id, name, description, location, terminal,
category, hour — weekday hours, content and embedding come back absent); and
each of the three lookups returns the not-found result (`None`) for every id
that was never inserted, rather than failing. -/
theorem claim1_point_lookups (db0 db : MySQLDB) (A : List Airport) (B : List Amenity)
    (C : List Flight) (D : List Policy)
    (h : initialize_data_sync db0 A B C D = .ok db) :
    (∀ a ∈ A, get_airport_by_id_sync db a.id = (some a, none)) ∧
    (∀ i : Int, (∀ a ∈ A, a.id ≠ i) → get_airport_by_id_sync db i = (none, none)) ∧
    (∀ f ∈ C, get_flight_sync db f.id = (some f, none)) ∧
    (∀ i : Int, (∀ f ∈ C, f.id ≠ i) → get_flight_sync db i = (none, none)) ∧
    (∀ m ∈ B, get_amenity_sync db m.id = (some (amenityColumns m), none)) ∧
    (∀ i : Int, (∀ m ∈ B, m.id ≠ i) → get_amenity_sync db i = (none, none)) := by
  obtain ⟨rfl, hA, hB, _hBall, hC, _hD, _hDall⟩ := initialize_ok_inv h
  refine ⟨?_, ?_, ?_, ?_, ?_, ?_⟩
  · intro a ha
    have := find?_key (fun x => x.id) A ((distinctKeys_pairwise _ A).1 hA) a ha
    simp [get_airport_by_id_sync, this]
  · intro i hi
    have : A.find? (fun x => x.id == i) = none :=
      List.find?_eq_none.2 fun x hx => by simp [hi x hx]
    simp [get_airport_by_id_sync, this]
  · intro f hf
    have := find?_key (fun x => x.id) C ((distinctKeys_pairwise _ C).1 hC) f hf
    simp [get_flight_sync, this]
  · intro i hi
    have : C.find? (fun x => x.id == i) = none :=
      List.find?_eq_none.2 fun x hx => by simp [hi x hx]
    simp [get_flight_sync, this]
  · intro m hm
    have := find?_key (fun x => x.id) B ((distinctKeys_pairwise _ B).1 hB) m hm
    simp [get_amenity_sync, this]
  · intro i hi
    have : B.find? (fun x => x.id == i) = none :=
      List.find?_eq_none.2 fun x hx => by simp [hi x hx]
    simp [get_amenity_sync, this]

/-- C1 witness: on concrete one-row tables, each inserted id is found (the
amenity comes back projected) and an absent id yields the not-found pair. -/
theorem claim1_witness :
    initialize_data_sync emptyDB [sfo] [coffeeShop] [deltaFlight] [bagPolicy] =
      .ok lookupDB ∧
    get_airport_by_id_sync lookupDB sfo.id = (some sfo, none) ∧
    get_flight_sync lookupDB deltaFlight.id = (some deltaFlight, none) ∧
    get_amenity_sync lookupDB coffeeShop.id = (some (amenityColumns coffeeShop), none) ∧
    get_airport_by_id_sync lookupDB 42 = (none, none) :=
  have h : initialize_data_sync emptyDB [sfo] [coffeeShop] [deltaFlight] [bagPolicy] =
      .ok lookupDB := by decide
  ⟨h,
   (claim1_point_lookups _ _ _ _ _ _ h).1 sfo (by decide),
   (claim1_point_lookups _ _ _ _ _ _ h).2.2.1 deltaFlight (by decide),
   (claim1_point_lookups _ _ _ _ _ _ h).2.2.2.2.1 coffeeShop (by decide),
   (claim1_point_lookups _ _ _ _ _ _ h).2.1 42 (by decide)⟩

/-- C1 counterexample: `getAmenity` does not return the full inserted record —
the coffee-shop amenity was inserted with populated hours, content and
embedding, but the lookup returns a record missing them. -/
theorem claim1_counterexample :
    initialize_data_sync emptyDB [sfo] [coffeeShop] [deltaFlight] [bagPolicy] =
      .ok lookupDB ∧
    get_amenity_sync lookupDB coffeeShop.id ≠ (some coffeeShop, none) := by
  constructor <;> decide

/-- C2 (amended): when every input list is sorted by strictly ascending id
(distinct primary keys) and every amenity and policy satisfies the `NOT NULL`
and 768-component embedding constraints, `initializeData` succeeds and
`exportData` returns exactly the four input lists (each therefore sorted by
ascending id, embeddings round-tripped through the modelled encoding). -/
theorem claim2_export_roundtrip (db0 : MySQLDB) (A : List Airport) (B : List Amenity)
    (C : List Flight) (D : List Policy)
    (hA : A.Pairwise (fun a b => a.id < b.id)) (hB : B.Pairwise (fun a b => a.id < b.id))
    (hC : C.Pairwise (fun a b => a.id < b.id)) (hD : D.Pairwise (fun a b => a.id < b.id))
    (hBok : ∀ b ∈ B, amenityRowOk b = true) (hDok : ∀ p ∈ D, policyRowOk p = true) :
    ∃ db, initialize_data_sync db0 A B C D = .ok db ∧
      export_data_sync db = (A, B, C, D) := by
  have dA : distinctKeys (·.id) A = true :=
    (distinctKeys_pairwise _ A).2 (hA.imp fun h => Int.ne_of_lt h)
  have dB : distinctKeys (·.id) B = true :=
    (distinctKeys_pairwise _ B).2 (hB.imp fun h => Int.ne_of_lt h)
  have dC : distinctKeys (·.id) C = true :=
    (distinctKeys_pairwise _ C).2 (hC.imp fun h => Int.ne_of_lt h)
  have dD : distinctKeys (·.id) D = true :=
    (distinctKeys_pairwise _ D).2 (hD.imp fun h => Int.ne_of_lt h)
  refine ⟨⟨A, B, C, [], D⟩, ?_, ?_⟩
  · simp [initialize_data_sync, dA, dB, dC, dD, List.all_eq_true.2 hBok,
      List.all_eq_true.2 hDok]
  · unfold export_data_sync orderByIdAsc
    rw [List.Sorted.insertionSort_eq (hA.imp fun h => le_of_lt h),
      List.Sorted.insertionSort_eq (hB.imp fun h => le_of_lt h),
      List.Sorted.insertionSort_eq (hC.imp fun h => le_of_lt h),
      List.Sorted.insertionSort_eq (hD.imp fun h => le_of_lt h)]

/-- C2 witness: the round-trip law at concrete sorted two-row tables. -/
theorem claim2_witness :
    ([sfo, jfk].Pairwise (fun a b => a.id < b.id)) ∧
    ([coffeeShop, bookShop].Pairwise (fun a b => a.id < b.id)) ∧
    (∀ b ∈ [coffeeShop, bookShop], amenityRowOk b = true) ∧
    (∀ p ∈ [bagPolicy], policyRowOk p = true) ∧
    (∃ db, initialize_data_sync emptyDB [sfo, jfk] [coffeeShop, bookShop]
        [flightJan1, flightDec31] [bagPolicy] = .ok db ∧
      export_data_sync db =
        ([sfo, jfk], [coffeeShop, bookShop], [flightJan1, flightDec31], [bagPolicy])) :=
  ⟨by decide, by decide, by decide, by decide,
   claim2_export_roundtrip emptyDB _ _ _ _ (by decide) (by decide) (by decide)
     (by decide) (by decide) (by decide)⟩

/-- C2 counterexample: for an input airport list that is not sorted by id,
`exportData` after `initializeData` is not element-wise equal to the input
list — it comes back reordered by ascending id — refuting the round-trip law
for arbitrary input lists. -/
theorem claim2_counterexample :
    initialize_data_sync emptyDB [jfk, sfo] [coffeeShop] [flightJan1] [bagPolicy] =
      .ok unsortedDB ∧
    (export_data_sync unsortedDB).1 ≠ [jfk, sfo] := by
  constructor <;> decide

/-- C4 (amended): for wildcard-free airport filters,
`searchFlightsByAirports` returns exactly the stored flights whose departure
timestamp lies in the 24-hour window starting at the parsed calendar date
(inclusive start, exclusive end) and whose departure/arrival codes equal the
supplied filters case-insensitively — whole-string equality, not substring
matching — capped at the first 10 such rows. -/
theorem claim4_search_flights_by_airports (db : MySQLDB) (date : String)
    (dep arr : Option String) (d : DateTime) (hd : strptimeDate date = some d)
    (hw1 : ∀ p, dep = some p → noWildcard p = true)
    (hw2 : ∀ p, arr = some p → noWildcard p = true) :
    search_flights_by_airports_sync db date dep arr =
      .ok ((db.flights.filter (flightDayMatch d dep arr)).take 10, none) ∧
    ∀ L s, search_flights_by_airports_sync db date dep arr = .ok (L, s) →
      L.length ≤ 10 := by
  have hdep : ∀ c : String, optFilterLike dep c = optFilterCI dep c := by
    intro c
    cases dep with
    | none => rfl
    | some p =>
      simp only [optFilterLike, optFilterCI]
      rw [Bool.eq_iff_iff, likeLower_iff (hw1 p rfl), beq_iff_eq]
  have harr : ∀ c : String, optFilterLike arr c = optFilterCI arr c := by
    intro c
    cases arr with
    | none => rfl
    | some p =>
      simp only [optFilterLike, optFilterCI]
      rw [Bool.eq_iff_iff, likeLower_iff (hw2 p rfl), beq_iff_eq]
  have hfilters : db.flights.filter (fun f =>
      optFilterLike dep f.departure_airport &&
      optFilterLike arr f.arrival_airport &&
      decide (d.key ≤ f.departure_time.key) &&
      decide (f.departure_time.key < (addOneDay d).key)) =
      db.flights.filter (flightDayMatch d dep arr) :=
    List.filter_congr fun f _ => by
      unfold flightDayMatch
      rw [hdep f.departure_airport, harr f.arrival_airport]
  have hmain : search_flights_by_airports_sync db date dep arr =
      .ok ((db.flights.filter (flightDayMatch d dep arr)).take 10, none) := by
    simp only [search_flights_by_airports_sync, hd]
    rw [hfilters]
  refine ⟨hmain, ?_⟩
  intro L s hLs
  rw [hmain] at hLs
  cases hLs
  exact List.length_take_le 10 _

/-- C4 witness: the amended characterisation instantiated on the spec's
example — over flights departing 2024-01-01T08:00 and 2023-12-31T23:59, the
query for 2024-01-01 from SFO returns only the first. -/
theorem claim4_witness :
    strptimeDate "2024-01-01" = some ⟨2024, 1, 1, 0, 0, 0⟩ ∧
    search_flights_by_airports_sync januaryDB "2024-01-01" (some "SFO") none =
      .ok ((januaryDB.flights.filter
        (flightDayMatch ⟨2024, 1, 1, 0, 0, 0⟩ (some "SFO") none)).take 10, none) ∧
    search_flights_by_airports_sync januaryDB "2024-01-01" (some "SFO") none =
      .ok ([flightJan1], none) :=
  ⟨by decide,
   (claim4_search_flights_by_airports januaryDB "2024-01-01" (some "SFO") none
      ⟨2024, 1, 1, 0, 0, 0⟩ (by decide)
      (fun p hp => by cases hp; decide)
      (fun p hp => Option.noConfusion hp)).1,
   by decide⟩

/-- C4 counterexample: the filter string `SF` is a case-insensitive substring
of the stored departure airport `SFO` of a flight inside the window, yet the
search returns the empty list — the airport filters are not substring
matches. -/
theorem claim4_counterexample :
    (lowerStr "SF").data.IsInfix (lowerStr flightJan1.departure_airport).data ∧
    DateTime.key ⟨2024, 1, 1, 0, 0, 0⟩ ≤ flightJan1.departure_time.key ∧
    flightJan1.departure_time.key < (addOneDay ⟨2024, 1, 1, 0, 0, 0⟩).key ∧
    strptimeDate "2024-01-01" = some ⟨2024, 1, 1, 0, 0, 0⟩ ∧
    flightJan1 ∈ januaryDB.flights ∧
    search_flights_by_airports_sync januaryDB "2024-01-01" (some "SF") none =
      .ok ([], none) := by
  refine ⟨?_, ?_, ?_, ?_, ?_, ?_⟩ <;> decide

/-- C5: for wildcard-free arguments, `validateTicket` returns the single
stored flight whose airline, flight number and departure airport match the
arguments case-insensitively and whose departure timestamp equals the parsed
argument exactly, and returns the not-found sentinel (`None`) when no stored
flight matches. -/
theorem claim5_validate_ticket (db : MySQLDB) (airline fnum dep dts : String)
    (t : DateTime) (hw1 : noWildcard airline = true) (hw2 : noWildcard fnum = true)
    (hw3 : noWildcard dep = true) (hcast : castDatetime dts = some t) :
    ((∀ f ∈ db.flights,
        ¬(lowerStr f.airline = lowerStr airline ∧
          lowerStr f.flight_number = lowerStr fnum ∧
          lowerStr f.departure_airport = lowerStr dep ∧ f.departure_time = t)) →
      validate_ticket_sync db airline fnum dep dts = (none, none)) ∧
    (∀ f ∈ db.flights,
      (lowerStr f.airline = lowerStr airline ∧
       lowerStr f.flight_number = lowerStr fnum ∧
       lowerStr f.departure_airport = lowerStr dep ∧ f.departure_time = t) →
      (∀ g ∈ db.flights,
        (lowerStr g.airline = lowerStr airline ∧
         lowerStr g.flight_number = lowerStr fnum ∧
         lowerStr g.departure_airport = lowerStr dep ∧ g.departure_time = t) → g = f) →
      validate_ticket_sync db airline fnum dep dts = (some f, none)) := by
  have hp : ∀ g : Flight,
      ((likeLower g.airline airline && likeLower g.flight_number fnum &&
        likeLower g.departure_airport dep &&
        (match castDatetime dts with
         | none => false
         | some t₂ => g.departure_time == t₂)) = true) ↔
      (lowerStr g.airline = lowerStr airline ∧
       lowerStr g.flight_number = lowerStr fnum ∧
       lowerStr g.departure_airport = lowerStr dep ∧ g.departure_time = t) := by
    intro g
    rw [hcast]
    simp only [Bool.and_eq_true, beq_iff_eq, likeLower_iff hw1, likeLower_iff hw2,
      likeLower_iff hw3, and_assoc]
  constructor
  · intro hnone
    have hnil : db.flights.filter (fun g =>
        likeLower g.airline airline && likeLower g.flight_number fnum &&
        likeLower g.departure_airport dep &&
        (match castDatetime dts with
         | none => false
         | some t₂ => g.departure_time == t₂)) = [] :=
      List.filter_eq_nil_iff.2 fun g hg => by
        rw [hp g]
        exact hnone g hg
    unfold validate_ticket_sync
    rw [hnil]
    rfl
  · intro f hf hmatch huniq
    unfold validate_ticket_sync
    rw [head?_take10, head?_filter_unique _ _ f hf ((hp f).2 hmatch)
      (fun g hg hpg => huniq g hg ((hp g).1 hpg))]

/-- C5 witness: the spec's example — `validateTicket("united", "1111", "sfo",
"2024-01-01T10:00")` matches the flight stored as airline `United`, flight
number `1111`, departure airport `SFO`, departing 2024-01-01T10:00. -/
theorem claim5_witness :
    noWildcard "united" = true ∧
    castDatetime "2024-01-01T10:00" = some ⟨2024, 1, 1, 10, 0, 0⟩ ∧
    unitedFlight ∈ unitedDB.flights ∧
    validate_ticket_sync unitedDB "united" "1111" "sfo" "2024-01-01T10:00" =
      (some unitedFlight, none) :=
  ⟨by decide, by decide, by decide,
   (claim5_validate_ticket unitedDB "united" "1111" "sfo" "2024-01-01T10:00"
      ⟨2024, 1, 1, 10, 0, 0⟩ (by decide) (by decide) (by decide) (by decide)).2
    unitedFlight (by decide) (by decide) (by decide)⟩

/-- C9 (amended): `searchFlightsByNumber` matches the airline and
flight-number columns by whole-string equality under the engine's default
case-insensitive collation — no substring or wildcard semantics — returning
at most the first 10 matching flights. -/
theorem claim9_search_flights_by_number (db : MySQLDB) (airline number : String) :
    (search_flights_by_number_sync db airline number).1.length ≤ 10 ∧
    (∀ f ∈ (search_flights_by_number_sync db airline number).1,
      f ∈ db.flights ∧ lowerStr f.airline = lowerStr airline ∧
        lowerStr f.flight_number = lowerStr number) ∧
    ((db.flights.filter (fun f =>
        collEq f.airline airline && collEq f.flight_number number)).length ≤ 10 →
      ∀ f ∈ db.flights, lowerStr f.airline = lowerStr airline →
        lowerStr f.flight_number = lowerStr number →
        f ∈ (search_flights_by_number_sync db airline number).1) := by
  unfold search_flights_by_number_sync
  refine ⟨List.length_take_le 10 _, ?_, ?_⟩
  · intro f hf
    have hmem := List.mem_filter.1 (List.take_subset 10 _ hf)
    rcases hmem with ⟨hin, hpred⟩
    rw [Bool.and_eq_true, collEq_iff, collEq_iff] at hpred
    exact ⟨hin, hpred.1, hpred.2⟩
  · intro hlen f hin h1 h2
    simp only
    rw [List.take_of_length_le hlen]
    exact List.mem_filter.2 ⟨hin, by
      rw [Bool.and_eq_true, collEq_iff, collEq_iff]
      exact ⟨h1, h2⟩⟩

/-- C9 counterexample: the stored airline is `Delta`, the query airline is
`DELTA`, and the flight is returned — the match is not case-sensitive
equality, which would have returned the empty list. -/
theorem claim9_counterexample :
    search_flights_by_number_sync wildcardDB "DELTA" "1111" = ([deltaFlight], none) ∧
    deltaFlight.airline ≠ "DELTA" := by
  constructor <;> decide

end RetrievalService
